import Mathlib

/-!
Verification of the aquabot maritime assistant core against its
natural-language specification.

The Python sources are shallowly embedded below.  Numeric values that the
program holds in IEEE doubles are idealised as exact rationals (`ℚ`);
Python's `round(x, 2)` is modelled as rounding to the nearest hundredth.
Strings are modelled as Lean `String` with an explicit character-level
lowercase map and substring test mirroring Python's `str.lower()` and the
`in` operator on `str`.

Embedded components:
  * `classify_intent`        from `backend/main.py`
  * the cargo-vessel matcher from `backend/agents/cargo_matching.py`
  * the voyage route planner from `backend/agents/voyage_planner.py`
  * the PDA cost estimator   from `backend/agents/pda_management.py`
-/

namespace Aqua

/-! ## String helpers (Python `str.lower`, `in`, `str.title`) -/

/-- Character-level lowercase map; mirrors Python `str.lower()` on the
ASCII vocabularies used by the program. -/
def lowerStr (s : String) : String := ⟨s.data.map Char.toLower⟩

/-- Boolean test that the first list is an initial segment of the second. -/
def isPrefixChars : List Char → List Char → Bool
  | [], _ => true
  | _ :: _, [] => false
  | a :: as, b :: bs => a == b && isPrefixChars as bs

/-- Boolean test that `needle` occurs contiguously inside the second list. -/
def isInfixChars (needle : List Char) : List Char → Bool
  | [] => isPrefixChars needle []
  | b :: bs => isPrefixChars needle (b :: bs) || isInfixChars needle bs

/-- Python `needle in hay` on strings: contiguous-substring containment. -/
def strContains (hay needle : String) : Bool := isInfixChars needle.data hay.data

/-- Python `any(word in text for word in words)`. -/
def containsAny (hay : String) (words : List String) : Bool :=
  words.any (fun w => strContains hay w)

/-- Python `str.title()` restricted to the single-word port names the
planner feeds it: capitalise the first character. -/
def titleStr (s : String) : String :=
  match s.data with
  | [] => ⟨[]⟩
  | c :: cs => ⟨c.toUpper :: cs⟩

/-- Python dictionary lookup on a string-keyed association list. -/
def lookupStr {α : Type} (key : String) : List (String × α) → Option α
  | [] => none
  | (k, v) :: rest => if key = k then some v else lookupStr key rest

/-! ## Intent classifier (`classify_intent`, backend/main.py lines 778-811) -/

/-- Sticky vocabulary for the cargo_matching agent (main.py line 784). -/
def cargo_matching_keywords : List String :=
  ["cargo", "requirements", "matching", "pairing", "tonnage", "laycan",
   "voyage", "route", "singapore", "atlantic", "ocean"]

/-- Sticky vocabulary for the market_insights agent (main.py line 788). -/
def market_insights_keywords : List String :=
  ["bunker", "prices", "freight", "rates", "market", "trends", "analysis",
   "prediction", "outlook"]

/-- Sticky vocabulary for the port_intelligence agent (main.py line 792). -/
def port_intelligence_keywords : List String :=
  ["port", "status", "bunker", "availability", "costs", "congestion", "charges"]

/-- Sticky vocabulary for the pda_management agent (main.py line 796). -/
def pda_management_keywords : List String :=
  ["pda", "costs", "disbursement", "budget", "expenses", "charges", "fees"]

/-- First general vessel_tracking rule vocabulary (main.py line 800). -/
def tracking_keywords_1 : List String :=
  ["where", "position", "location", "tracking", "ais"]

/-- Second general vessel_tracking rule vocabulary (main.py line 802). -/
def tracking_keywords_2 : List String :=
  ["vessel", "ship", "ever given", "cosco", "msc", "maersk"]

/-- General voyage_planning rule vocabulary (main.py line 804). -/
def voyage_keywords : List String :=
  ["voyage", "route", "suez", "cape", "planning", "plan"]

/-- General weather rule vocabulary (main.py line 806). -/
def weather_keywords : List String :=
  ["weather", "storm", "wind", "sea conditions"]

/-- General document_analysis rule vocabulary (main.py line 808). -/
def document_keywords : List String :=
  ["document", "charter", "party", "laytime", "clauses", "analyze", "summary",
   "analysis", "extract", "review", "examine"]

/-- Embedding of `classify_intent(message, current_agent)` from
backend/main.py.  Agent-sticky rules are checked first; on a sticky agent
whose vocabulary misses the text, control falls through to the ordered
general rules; the final fallback is `("general", 0.5)`. -/
def classify_intent (message : String) (current_agent : String) : String × ℚ :=
  let ml := lowerStr message
  if current_agent = "cargo_matching" ∧ containsAny ml cargo_matching_keywords = true then
    ("cargo_matching", 0.98)
  else if current_agent = "market_insights" ∧ containsAny ml market_insights_keywords = true then
    ("market_insights", 0.98)
  else if current_agent = "port_intelligence" ∧ containsAny ml port_intelligence_keywords = true then
    ("port_intelligence", 0.98)
  else if current_agent = "pda_management" ∧ containsAny ml pda_management_keywords = true then
    ("pda_management", 0.98)
  else if containsAny ml tracking_keywords_1 = true then ("vessel_tracking", 0.95)
  else if containsAny ml tracking_keywords_2 = true then ("vessel_tracking", 0.9)
  else if containsAny ml voyage_keywords = true then ("voyage_planning", 0.95)
  else if containsAny ml weather_keywords = true then ("weather", 0.9)
  else if containsAny ml document_keywords = true then ("document_analysis", 0.95)
  else ("general", 0.5)

/-- C5: when the conversation context's current agent is market_insights and
the lowercased text contains any keyword of the market-insights vocabulary,
classification returns intent market_insights with the fixed sticky
confidence 0.98, regardless of any other keyword (for example a
vessel_tracking keyword) present in the text. -/
theorem sticky_market_intent (message kw : String)
    (hkw : kw ∈ market_insights_keywords)
    (hc : strContains (lowerStr message) kw = true) :
    classify_intent message "market_insights" = ("market_insights", 0.98) := by
  have hany : containsAny (lowerStr message) market_insights_keywords = true :=
    List.any_eq_true.mpr ⟨kw, hkw, hc⟩
  have h1 : ¬ ("market_insights" = "cargo_matching" ∧
      containsAny (lowerStr message) cargo_matching_keywords = true) := by
    intro h
    exact absurd h.1 (by decide)
  unfold classify_intent
  rw [if_neg h1, if_pos ⟨rfl, hany⟩]

/-- Witness for C5 at a concrete input: the text contains the
market-insights keyword "market" and also the vessel_tracking keyword
"tracking", yet the sticky rule wins. -/
theorem sticky_market_intent_witness :
    "market" ∈ market_insights_keywords ∧
    strContains (lowerStr "Tracking the market today") "market" = true ∧
    strContains (lowerStr "Tracking the market today") "tracking" = true ∧
    "tracking" ∈ tracking_keywords_1 ∧
    classify_intent "Tracking the market today" "market_insights"
      = ("market_insights", 0.98) :=
  ⟨by decide, by decide, by decide, by decide,
   sticky_market_intent "Tracking the market today" "market" (by decide) (by decide)⟩

/-- C8: the classifier is a pure function of its two arguments; two calls
with identical text and identical current-agent context return the
identical (intent, confidence) pair. -/
theorem classify_intent_deterministic (m₁ m₂ a₁ a₂ : String)
    (hm : m₁ = m₂) (ha : a₁ = a₂) :
    classify_intent m₁ a₁ = classify_intent m₂ a₂ := by
  rw [hm, ha]

/-- Witness for C8 at a concrete input. -/
theorem classify_intent_deterministic_witness :
    classify_intent "where is the vessel" "general"
      = classify_intent "where is the vessel" "general" :=
  classify_intent_deterministic "where is the vessel" "where is the vessel"
    "general" "general" rfl rfl

/-- C9: classifying the empty string with the default context "general"
returns exactly ("general", 0.5); every branch of the classifier is total,
so no exception is possible. -/
theorem classify_empty_general :
    classify_intent "" "general" = ("general", 0.5) := by
  unfold classify_intent
  norm_num [lowerStr, containsAny, cargo_matching_keywords,
    market_insights_keywords, port_intelligence_keywords,
    pda_management_keywords, tracking_keywords_1, tracking_keywords_2,
    voyage_keywords, weather_keywords, document_keywords, strContains,
    isInfixChars, isPrefixChars]

/-! ## Cargo-vessel matcher (backend/agents/cargo_matching.py) -/

/-- Static cargo record: density, stowage factor, handling class. -/
structure CargoSpec where
  density : ℚ
  stowage_factor : ℚ
  handling : String
  deriving DecidableEq, Repr

/-- Static vessel capacity record: deadweight tonnage, cargo holds, draft. -/
structure VesselCap where
  dwt : ℚ
  cargo_holds : ℕ
  max_draft : ℚ
  deriving DecidableEq, Repr

/-- The `self.cargo_types` table (cargo_matching.py lines 15-23). -/
def cargo_types_table : List (String × CargoSpec) :=
  [("coal", ⟨0.8, 1.25, "bulk"⟩),
   ("iron_ore", ⟨2.5, 0.4, "bulk"⟩),
   ("grain", ⟨0.75, 1.33, "bulk"⟩),
   ("oil", ⟨0.85, 1.18, "liquid"⟩),
   ("lng", ⟨0.45, 2.22, "gas"⟩),
   ("lpg", ⟨0.55, 1.82, "gas"⟩),
   ("containers", ⟨0.15, 6.67, "container"⟩)]

/-- The `self.vessel_capacities` table (cargo_matching.py lines 26-33). -/
def vessel_capacities : List (String × VesselCap) :=
  [("panamax", ⟨75000, 7, 14.5⟩),
   ("capesize", ⟨180000, 9, 18.5⟩),
   ("supramax", ⟨58000, 5, 13.5⟩),
   ("handysize", ⟨35000, 4, 11.5⟩),
   ("vlcc", ⟨300000, 12, 22.0⟩),
   ("aframax", ⟨120000, 8, 16.0⟩)]

/-- Python truthiness of the optional quantity: `None` and `0.0` are falsy,
any other float is truthy. -/
def qTruthy : Option ℚ → Bool
  | none => false
  | some q => q != 0

/-- Embedding of `_can_carry_cargo` (cargo_matching.py lines 144-160).
The vessel record is passed alongside its name, mirroring the dictionary
lookup `self.vessel_capacities[vessel_type]`. -/
def can_carry_cargo (vessel_type : String) (vd : VesselCap) (cargo_type : String)
    (quantity : Option ℚ) : Bool :=
  if qTruthy quantity = true ∧ quantity.getD 0 > vd.dwt then false
  else if cargo_type = "containers" ∧ vessel_type ∉ (["panamax", "capesize"] : List String) then
    false
  else if cargo_type ∈ (["lng", "lpg"] : List String) ∧
      vessel_type ∉ (["vlcc", "aframax"] : List String) then false
  else true

/-- Embedding of `_calculate_match_score` (cargo_matching.py lines 162-193):
base 50, utilization band bonus/penalty, cargo/vessel affinity bonuses,
versatility bonus, clamped to [0, 100]. -/
def calculate_match_score (vessel_type : String) (vd : VesselCap) (cargo_type : String)
    (quantity : Option ℚ) : ℚ :=
  let score : ℚ := 50
  let score :=
    if qTruthy quantity = true then
      let utilization := quantity.getD 0 / vd.dwt * 100
      if 70 ≤ utilization ∧ utilization ≤ 95 then score + 20
      else if 50 ≤ utilization ∧ utilization < 70 then score + 10
      else if utilization > 95 then score - 10
      else score
    else score
  let score :=
    if cargo_type ∈ (["coal", "iron_ore", "grain"] : List String) ∧
        vessel_type ∈ (["panamax", "capesize", "supramax"] : List String) then score + 15
    else score
  let score :=
    if cargo_type = "oil" ∧ vessel_type ∈ (["vlcc", "aframax"] : List String) then score + 15
    else score
  let score :=
    if cargo_type = "containers" ∧ vessel_type ∈ (["panamax", "capesize"] : List String) then
      score + 10
    else score
  let score := if vessel_type ∈ (["panamax", "supramax"] : List String) then score + 5 else score
  min 100 (max 0 score)

/-- One entry of the ranked match list built by `_match_cargo_vessels`. -/
structure MatchResult where
  vessel_type : String
  cargo_type : String
  match_score : ℚ
  capacity_utilization : Option ℚ
  vessel_specs : VesselCap
  cargo_specs : CargoSpec
  deriving DecidableEq, Repr

/-- Embedding of `_match_cargo_vessels` (cargo_matching.py lines 113-142).
Python `list.sort(key=..., reverse=True)` is a stable descending sort; it is
modelled by `List.insertionSort` with the order "later score not above
earlier score", which keeps input order on ties. -/
def match_cargo_vessels (cargo_type : Option String) (quantity : Option ℚ) :
    List MatchResult :=
  match cargo_type with
  | none => []
  | some ct =>
    let cargo_data := (lookupStr ct cargo_types_table).getD ⟨0, 0, ""⟩
    let unsorted := vessel_capacities.filterMap (fun p =>
      if can_carry_cargo p.1 p.2 ct quantity = true then
        some { vessel_type := p.1
               cargo_type := ct
               match_score := calculate_match_score p.1 p.2 ct quantity
               capacity_utilization :=
                 if qTruthy quantity = true then
                   some (min 100 (quantity.getD 0 / p.2.dwt * 100))
                 else none
               vessel_specs := p.2
               cargo_specs := cargo_data }
      else none)
    unsorted.insertionSort (fun a b => b.match_score ≤ a.match_score)

/-- Names of the static cargo vocabulary, the scope of claim C1. -/
def cargo_vocab : List String := cargo_types_table.map Prod.fst

/-- Helper: what eligibility in `_can_carry_cargo` guarantees. -/
theorem can_carry_cargo_spec (vt : String) (vd : VesselCap) (ct : String)
    (q : Option ℚ) (h : can_carry_cargo vt vd ct q = true) :
    ¬ (qTruthy q = true ∧ q.getD 0 > vd.dwt) ∧
    (ct = "containers" → vt ∈ (["panamax", "capesize"] : List String)) ∧
    (ct ∈ (["lng", "lpg"] : List String) → vt ∈ (["vlcc", "aframax"] : List String)) := by
  unfold can_carry_cargo at h
  split_ifs at h with h1 h2 h3
  refine ⟨h1, fun hct => ?_, fun hct => ?_⟩
  · by_contra hv
    exact h2 ⟨hct, hv⟩
  · by_contra hv
    exact h3 ⟨hct, hv⟩

/-- Helper: the clamp in `_calculate_match_score` forces the score into
the interval [0, 100]. -/
theorem calculate_match_score_bounds (vt : String) (vd : VesselCap) (ct : String)
    (q : Option ℚ) :
    0 ≤ calculate_match_score vt vd ct q ∧ calculate_match_score vt vd ct q ≤ 100 := by
  unfold calculate_match_score
  constructor
  · exact le_min (by norm_num) (le_max_left 0 _)
  · exact min_le_left _ _

/-- Helper: a falsy quantity is the rational zero or absent. -/
theorem qTruthy_false_getD (q : Option ℚ) (h : qTruthy q = false) : q.getD 0 = 0 := by
  cases q with
  | none => rfl
  | some a =>
    simp only [qTruthy, bne_eq_false_iff_eq] at h
    simpa using h

/-- Helper: membership in the ranked list comes from an eligible vessel of
the static table. -/
theorem mem_match_cargo_vessels (ct : String) (q : Option ℚ) (r : MatchResult)
    (hr : r ∈ match_cargo_vessels (some ct) q) :
    ∃ p ∈ vessel_capacities, can_carry_cargo p.1 p.2 ct q = true ∧
      r.vessel_type = p.1 ∧ r.cargo_type = ct ∧
      r.match_score = calculate_match_score p.1 p.2 ct q ∧
      r.capacity_utilization =
        (if qTruthy q = true then some (min 100 (q.getD 0 / p.2.dwt * 100)) else none) ∧
      r.vessel_specs = p.2 := by
  unfold match_cargo_vessels at hr
  rw [(List.perm_insertionSort _ _).mem_iff, List.mem_filterMap] at hr
  obtain ⟨p, hp, hif⟩ := hr
  by_cases hcc : can_carry_cargo p.1 p.2 ct q = true
  · rw [if_pos hcc] at hif
    exact ⟨p, hp, hcc, by injection hif with h; rw [← h], by injection hif with h; rw [← h],
      by injection hif with h; rw [← h], by injection hif with h; rw [← h],
      by injection hif with h; rw [← h]⟩
  · rw [if_neg hcc] at hif
    exact absurd hif (by simp)

/-- Helper: every vessel record in the static table has a positive DWT. -/
theorem vessel_capacities_dwt_pos (p : String × VesselCap) (hp : p ∈ vessel_capacities) :
    0 < p.2.dwt := by
  fin_cases hp <;> norm_num

/-- C1: for a cargo type of the static vocabulary and any quantity, every
entry of the match list has match_score in [0, 100]; no surviving vessel has
DWT below the quantity; container cargo appears only on panamax or capesize;
gas cargoes (lng, lpg) appear only on vlcc or aframax, so in particular LNG
is never matched to a panamax. -/
theorem cargo_match_score_bounds_and_eligibility (ct : String) (q : Option ℚ)
    (r : MatchResult) (_hct : ct ∈ cargo_vocab)
    (hr : r ∈ match_cargo_vessels (some ct) q) :
    (0 ≤ r.match_score ∧ r.match_score ≤ 100) ∧
    q.getD 0 ≤ r.vessel_specs.dwt ∧
    (r.cargo_type = "containers" → r.vessel_type ∈ (["panamax", "capesize"] : List String)) ∧
    (r.cargo_type ∈ (["lng", "lpg"] : List String) →
      r.vessel_type ∈ (["vlcc", "aframax"] : List String)) := by
  obtain ⟨p, hp, hcc, hvt, hct', hsc, hcu, hvs⟩ := mem_match_cargo_vessels ct q r hr
  obtain ⟨hcap, hcont, hgas⟩ := can_carry_cargo_spec p.1 p.2 ct q hcc
  refine ⟨?_, ?_, ?_, ?_⟩
  · rw [hsc]
    exact calculate_match_score_bounds p.1 p.2 ct q
  · rw [hvs]
    by_cases htr : qTruthy q = true
    · push_neg at hcap
      exact le_of_not_lt (fun hlt => absurd (hcap htr) (not_le.mpr hlt))
    · rw [qTruthy_false_getD q (Bool.not_eq_true _ ▸ eq_false_of_ne_true htr)]
      exact le_of_lt (vessel_capacities_dwt_pos p hp)
  · intro hc
    rw [hvt]
    exact hcont (hct' ▸ hc)
  · intro hc
    rw [hvt]
    exact hgas (hct' ▸ hc)

/-- The top-ranked entry the matcher returns for 50000 tons of lng. -/
def lngVlccMatch : MatchResult :=
  ⟨"vlcc", "lng", 50, some (50 / 3), ⟨300000, 12, 22⟩, ⟨0.45, 2.22, "gas"⟩⟩

/-- Helper: concrete run of the matcher on `match("lng", 50000)`; only the
gas-capable tankers vlcc and aframax survive, each with base score 50. -/
theorem match_lng_50000_eval :
    match_cargo_vessels (some "lng") (some 50000) =
      [lngVlccMatch,
       ⟨"aframax", "lng", 50, some (125 / 3), ⟨120000, 8, 16⟩, ⟨0.45, 2.22, "gas"⟩⟩] := by
  norm_num +decide [match_cargo_vessels, vessel_capacities, cargo_types_table,
    can_carry_cargo, calculate_match_score, qTruthy, List.insertionSort,
    List.orderedInsert, lookupStr, List.filterMap, lngVlccMatch, min_def, max_def]

/-- Witness for C1 at the concrete input ("lng", 50000) and the top entry. -/
theorem cargo_match_eligibility_witness :
    (0 ≤ lngVlccMatch.match_score ∧ lngVlccMatch.match_score ≤ 100) ∧
    (some (50000 : ℚ)).getD 0 ≤ lngVlccMatch.vessel_specs.dwt ∧
    (lngVlccMatch.cargo_type = "containers" →
      lngVlccMatch.vessel_type ∈ (["panamax", "capesize"] : List String)) ∧
    (lngVlccMatch.cargo_type ∈ (["lng", "lpg"] : List String) →
      lngVlccMatch.vessel_type ∈ (["vlcc", "aframax"] : List String)) :=
  cargo_match_score_bounds_and_eligibility "lng" (some 50000) lngVlccMatch
    (by simp [cargo_vocab, cargo_types_table])
    (by rw [match_lng_50000_eval]; exact List.mem_cons_self _ _)

/-- Combined cargo/vessel affinity bonus of `_calculate_match_score`
(cargo_matching.py lines 180-187), written as a sum of the three
conditional bonuses. -/
def affinity_bonus (ct vt : String) : ℚ :=
  (if ct ∈ (["coal", "iron_ore", "grain"] : List String) ∧
      vt ∈ (["panamax", "capesize", "supramax"] : List String) then 15 else 0) +
  (if ct = "oil" ∧ vt ∈ (["vlcc", "aframax"] : List String) then 15 else 0) +
  (if ct = "containers" ∧ vt ∈ (["panamax", "capesize"] : List String) then 10 else 0)

/-- Versatility bonus of `_calculate_match_score` (cargo_matching.py
lines 190-191). -/
def versatility_bonus (vt : String) : ℚ :=
  if vt ∈ (["panamax", "supramax"] : List String) then 5 else 0

/-- Helper: with a falsy quantity the utilization block is skipped, so the
score is the clamped base 50 plus affinity and versatility bonuses only. -/
theorem calculate_match_score_no_quantity (vt : String) (vd : VesselCap) (ct : String)
    (q : Option ℚ) (hq : qTruthy q = false) :
    calculate_match_score vt vd ct q =
      min 100 (max 0 (50 + affinity_bonus ct vt + versatility_bonus vt)) := by
  simp only [calculate_match_score, affinity_bonus, versatility_bonus, hq,
    Bool.false_eq_true, if_false]
  split_ifs <;> norm_num

/-- C10 (amended): a falsy quantity (absent, or the Python-falsy 0.0) skips
the DWT capacity check — eligibility does not depend on the vessel record —
and yields capacity_utilization `none` and the base-plus-affinity score; a
present nonzero quantity yields capacity_utilization
min(100, quantity/DWT×100), which never exceeds 100. -/
theorem cargo_match_quantity_handling (ct : String) (q : Option ℚ) (r : MatchResult)
    (hr : r ∈ match_cargo_vessels (some ct) q) :
    (qTruthy q = false →
      r.capacity_utilization = none ∧
      r.match_score =
        min 100 (max 0 (50 + affinity_bonus ct r.vessel_type + versatility_bonus r.vessel_type)) ∧
      ∀ (vt : String) (vd vd' : VesselCap),
        can_carry_cargo vt vd ct q = can_carry_cargo vt vd' ct q) ∧
    (∀ qv : ℚ, q = some qv → qv ≠ 0 →
      r.capacity_utilization = some (min 100 (qv / r.vessel_specs.dwt * 100)) ∧
      min 100 (qv / r.vessel_specs.dwt * 100) ≤ 100) := by
  obtain ⟨p, hp, hcc, hvt, hct', hsc, hcu, hvs⟩ := mem_match_cargo_vessels ct q r hr
  constructor
  · intro hq
    refine ⟨?_, ?_, ?_⟩
    · rw [hcu, if_neg (by rw [hq]; exact Bool.false_ne_true)]
    · rw [hsc, hvt, calculate_match_score_no_quantity p.1 p.2 ct q hq]
    · intro vt vd vd'
      have h1 : ¬ (qTruthy q = true ∧ q.getD 0 > vd.dwt) :=
        fun h => Bool.false_ne_true (hq ▸ h.1)
      have h2 : ¬ (qTruthy q = true ∧ q.getD 0 > vd'.dwt) :=
        fun h => Bool.false_ne_true (hq ▸ h.1)
      unfold can_carry_cargo
      rw [if_neg h1, if_neg h2]
  · intro qv hqv hqv0
    have htr : qTruthy q = true := by
      rw [hqv]
      simpa [qTruthy] using hqv0
    have hgd : q.getD 0 = qv := by rw [hqv]; rfl
    constructor
    · rw [hcu, if_pos htr, hgd, hvs]
    · exact min_le_left _ _

/-- Counterexample for C10 as stated: with the present but Python-falsy
quantity 0.0 every returned match carries capacity_utilization `none`,
not min(100, 0/DWT×100) = 0. -/
theorem zero_quantity_utilization_counterexample :
    (match_cargo_vessels (some "coal") (some 0)).map (fun r => r.capacity_utilization)
      = [none, none, none, none, none, none] ∧
    (none : Option ℚ) ≠ some (min 100 ((0 : ℚ) / 75000 * 100)) := by
  constructor
  · norm_num +decide [match_cargo_vessels, vessel_capacities, cargo_types_table,
      can_carry_cargo, calculate_match_score, qTruthy, List.insertionSort,
      List.orderedInsert, lookupStr, List.filterMap, min_def, max_def]
  · simp

/-- Witness for C10 at the concrete input ("lng", 50000) and the top entry. -/
theorem cargo_match_quantity_handling_witness :
    lngVlccMatch.capacity_utilization
        = some (min 100 ((50000 : ℚ) / lngVlccMatch.vessel_specs.dwt * 100)) ∧
    min 100 ((50000 : ℚ) / lngVlccMatch.vessel_specs.dwt * 100) ≤ 100 :=
  (cargo_match_quantity_handling "lng" (some 50000) lngVlccMatch
      (by rw [match_lng_50000_eval]; exact List.mem_cons_self _ _)).2
    50000 rfl (by norm_num)

/-! ## Profitability (`_calculate_profitability`, cargo_matching.py lines 195-257) -/

/-- Python `round(x, 2)` idealised on exact rationals: round to the nearest
hundredth (the program's values are floats; no claim-relevant value falls on
a tie). -/
def round2 (q : ℚ) : ℚ := (round (q * 100) : ℤ) / 100

/-- The `freight_rates` table (cargo_matching.py lines 213-221), USD/ton. -/
def freight_rates : List (String × ℚ) :=
  [("coal", 15), ("iron_ore", 18), ("grain", 20), ("oil", 25), ("lng", 30),
   ("lpg", 28), ("containers", 35)]

/-- Freight rate selection `freight_rates.get(cargo_type, 20)`. -/
def freight_rate_of (cargo_type : Option String) : ℚ :=
  match cargo_type with
  | none => 20
  | some ct => (lookupStr ct freight_rates).getD 20

/-- Revenue `quantity * freight_rate if quantity else 0`. -/
def revenue_of (cargo_type : Option String) (quantity : Option ℚ) : ℚ :=
  if qTruthy quantity = true then quantity.getD 0 * freight_rate_of cargo_type else 0

/-- Total estimated costs: DWT-proportional daily fuel at the bunker price
plus the fixed port (15000) and other (5000) constants. -/
def profitability_costs_of (best : MatchResult) (fuel_price : ℚ) : ℚ :=
  let vd := (lookupStr best.vessel_type vessel_capacities).getD ⟨0, 0, 0⟩
  let fuel_consumption := vd.dwt * 0.001
  let daily_fuel_cost := fuel_consumption * fuel_price
  daily_fuel_cost + 15000 + 5000

/-- The profitability record returned by `_calculate_profitability`. -/
structure Profitability where
  revenue : ℚ
  total_costs : ℚ
  profit : ℚ
  profit_margin : ℚ
  freight_rate : ℚ
  fuel_cost_per_day : ℚ
  port_costs : ℚ
  other_costs : ℚ
  deriving DecidableEq, Repr

/-- Embedding of the arithmetic of `_calculate_profitability` applied to the
best (first) match; `fuel_price` stands for the externally supplied bunker
price (default 500). -/
def profitability_of (best : MatchResult) (cargo_type : Option String)
    (quantity : Option ℚ) (fuel_price : ℚ) : Profitability :=
  let freight_rate := freight_rate_of cargo_type
  let revenue := revenue_of cargo_type quantity
  let vd := (lookupStr best.vessel_type vessel_capacities).getD ⟨0, 0, 0⟩
  let fuel_consumption := vd.dwt * 0.001
  let daily_fuel_cost := fuel_consumption * fuel_price
  let port_costs : ℚ := 15000
  let other_costs : ℚ := 5000
  let total_costs := daily_fuel_cost + port_costs + other_costs
  let profit := revenue - total_costs
  let profit_margin := if revenue > 0 then profit / revenue * 100 else 0
  ⟨round2 revenue, round2 total_costs, round2 profit, round2 profit_margin,
   freight_rate, round2 daily_fuel_cost, port_costs, other_costs⟩

/-- Embedding of `_calculate_profitability`: with an empty match list the
function reports an error record, modelled as `none`. -/
def calculate_profitability (ms : List MatchResult) (cargo_type : Option String)
    (quantity : Option ℚ) (fuel_price : ℚ) : Option Profitability :=
  match ms with
  | [] => none
  | best :: _ => some (profitability_of best cargo_type quantity fuel_price)

/-- C7 (amended): the reported margin is the ratio profit/revenue×100
rounded to two decimals when revenue is strictly positive and exactly 0
otherwise (in particular when the quantity is absent, so revenue is 0); the
division is guarded by the positivity test, so no division by zero is ever
performed. -/
theorem profit_margin_no_division_by_zero (best : MatchResult) (ct : Option String)
    (q : Option ℚ) (price : ℚ) :
    (profitability_of best ct q price).profit_margin =
      (if 0 < revenue_of ct q then
        round2 ((revenue_of ct q - profitability_costs_of best price) / revenue_of ct q * 100)
      else 0) := by
  simp only [profitability_of, profitability_costs_of, gt_iff_lt]
  by_cases h : 0 < revenue_of ct q
  · rw [if_pos h, if_pos h]
  · rw [if_neg h, if_neg h]
    norm_num [round2]

/-- Counterexample for C7 as stated: for 50000 tons of coal at bunker price
500 the stored margin is the rounded 93.47, while profit/revenue×100 is
701000/750000×100 = 93.4666…, so the exact equality of the claim fails. -/
theorem profit_margin_rounding_counterexample :
    calculate_profitability (match_cargo_vessels (some "coal") (some 50000))
        (some "coal") (some 50000) 500
      = some ⟨750000, 49000, 701000, 93.47, 15, 29000, 15000, 5000⟩ ∧
    (93.47 : ℚ) ≠ 701000 / 750000 * 100 := by
  constructor
  · norm_num +decide [calculate_profitability, profitability_of, match_cargo_vessels,
      vessel_capacities, cargo_types_table, can_carry_cargo, calculate_match_score,
      qTruthy, List.insertionSort, List.orderedInsert, lookupStr, List.filterMap,
      min_def, max_def, freight_rate_of, freight_rates, revenue_of, round2, round_eq]
  · norm_num

/-! ## Voyage route planner (backend/agents/voyage_planner.py) -/

/-- Vessel performance record (voyage_planner.py lines 34-41). -/
structure VesselPerf where
  speed : ℚ
  fuel_consumption : ℚ
  draft : ℚ
  deriving DecidableEq, Repr

/-- The `self.vessel_types` table (voyage_planner.py lines 34-41). -/
def vessel_types_table : List (String × VesselPerf) :=
  [("panamax", ⟨14, 30, 14.5⟩),
   ("capesize", ⟨15, 45, 18.5⟩),
   ("supramax", ⟨13, 25, 13.5⟩),
   ("handysize", ⟨12, 20, 11.5⟩),
   ("vlcc", ⟨16, 80, 22.0⟩),
   ("aframax", ⟨14, 35, 16.0⟩)]

/-- One entry of the `self.routes` table: distance and the canal flags; a
flag absent from the Python dict is read back with `.get`, hence `false`
here. -/
structure RouteData where
  distance : ℚ
  via_suez : Bool
  via_panama : Bool
  via_cape : Bool
  deriving DecidableEq, Repr

/-- The `self.routes` table (voyage_planner.py lines 17-25). -/
def routes_table : List ((String × String) × RouteData) :=
  [(("singapore", "rotterdam"), ⟨8500, true, false, false⟩),
   (("singapore", "houston"), ⟨10500, false, true, false⟩),
   (("shanghai", "rotterdam"), ⟨11000, true, false, false⟩),
   (("shanghai", "houston"), ⟨12000, false, true, false⟩),
   (("santos", "qingdao"), ⟨13000, false, true, false⟩),
   (("mumbai", "rotterdam"), ⟨6500, true, false, false⟩),
   (("mumbai", "houston"), ⟨9500, true, false, false⟩)]

/-- Canal fee schedule entry (voyage_planner.py lines 28-31). -/
structure CanalFee where
  fee_per_ton : ℚ
  min_fee : ℚ
  max_draft : ℚ
  deriving DecidableEq, Repr

/-- Suez row of `self.canal_fees`. -/
def suez_fees : CanalFee := ⟨8.5, 5000, 20.1⟩

/-- Panama row of `self.canal_fees`. -/
def panama_fees : CanalFee := ⟨5.25, 800, 15.2⟩

/-- Embedding of `_calculate_canal_fees` (voyage_planner.py lines 245-259):
draft-derived tonnage proxy, floor at the minimum fee, rounded to cents.
The two Boolean arguments are the `.get` reads of the route dict flags. -/
def calculate_canal_fees (vd : VesselPerf) (via_suez via_panama : Bool) : ℚ :=
  if via_suez = true then
    round2 (max suez_fees.min_fee (vd.draft / 20 * 100000 * suez_fees.fee_per_ton))
  else if via_panama = true then
    round2 (max panama_fees.min_fee (vd.draft / 15 * 80000 * panama_fees.fee_per_ton))
  else 0

/-- One route option dict built by `_calculate_route_options`.  The Python
dict carries exactly the keys modelled here — in particular it never
carries a `total_cost` key (relevant to `_generate_recommendations`). -/
structure RouteOption where
  name : String
  distance : ℚ
  via_canal : String
  estimated_days : ℚ
  fuel_consumption : ℚ
  canal_fees : ℚ
  rtype : String
  deriving DecidableEq, Repr

/-- The primary route dict of `_calculate_route_options` (voyage_planner.py
lines 204-212). -/
def primary_route (origin destination : String) (rd : RouteData) (vd : VesselPerf) :
    RouteOption :=
  { name := titleStr origin ++ " to " ++ titleStr destination
    distance := rd.distance
    via_canal := if rd.via_suez = true then "Suez"
      else if rd.via_panama = true then "Panama" else "None"
    estimated_days := rd.distance / (vd.speed * 24)
    fuel_consumption := rd.distance / vd.speed * vd.fuel_consumption / 24
    canal_fees := calculate_canal_fees vd rd.via_suez rd.via_panama
    rtype := "primary" }

/-- The Cape alternative dict (voyage_planner.py lines 219-228): 40% longer,
distance truncated by `int()` (`Int.floor` on these positive values), no
canal fee; the duration and fuel figures use the untruncated distance, as in
the source. -/
def cape_route (origin destination : String) (rd : RouteData) (vd : VesselPerf) :
    RouteOption :=
  { name := titleStr origin ++ " to " ++ titleStr destination ++ " via Cape"
    distance := (⌊rd.distance * 1.4⌋ : ℚ)
    via_canal := "None"
    estimated_days := rd.distance * 1.4 / (vd.speed * 24)
    fuel_consumption := rd.distance * 1.4 / vd.speed * vd.fuel_consumption / 24
    canal_fees := 0
    rtype := "alternative" }

/-- The what-if Suez dict (voyage_planner.py lines 232-241): 20% shorter,
distance truncated first and then used for duration and fuel, fee computed
with the via_suez flag forced on. -/
def whatif_suez_route (origin destination : String) (rd : RouteData) (vd : VesselPerf) :
    RouteOption :=
  { name := titleStr origin ++ " to " ++ titleStr destination ++ " via Suez"
    distance := (⌊rd.distance * 0.8⌋ : ℚ)
    via_canal := "Suez"
    estimated_days := (⌊rd.distance * 0.8⌋ : ℚ) / (vd.speed * 24)
    fuel_consumption := (⌊rd.distance * 0.8⌋ : ℚ) / vd.speed * vd.fuel_consumption / 24
    canal_fees := calculate_canal_fees vd true false
    rtype := "what_if" }

/-- Embedding of `_calculate_route_options` (voyage_planner.py lines
198-243).  `compare_routes` and `req_via_suez` are the request fields
`compare_routes` and `via_suez`. -/
def calculate_route_options (origin destination : String) (rd : RouteData)
    (vd : VesselPerf) (compare_routes req_via_suez : Bool) : List RouteOption :=
  let routes := [primary_route origin destination rd vd]
  let routes :=
    if compare_routes = true ∧ (rd.via_suez = true ∨ rd.via_panama = true) then
      routes ++ [cape_route origin destination rd vd]
    else routes
  let routes :=
    if compare_routes = true ∧ req_via_suez = true ∧ rd.via_suez = false then
      routes ++ [whatif_suez_route origin destination rd vd]
    else routes
  routes

/-- Helper: the route list only ever contains the three dict shapes. -/
theorem mem_calculate_route_options (origin destination : String) (rd : RouteData)
    (vd : VesselPerf) (cr rvs : Bool) (r : RouteOption)
    (hr : r ∈ calculate_route_options origin destination rd vd cr rvs) :
    r = primary_route origin destination rd vd ∨
    r = cape_route origin destination rd vd ∨
    r = whatif_suez_route origin destination rd vd := by
  simp only [calculate_route_options] at hr
  split_ifs at hr <;>
    simp only [List.mem_append, List.mem_singleton, List.mem_cons,
      List.not_mem_nil, or_false] at hr <;> tauto

/-- Embedding of `_find_route_key` combined with the table read that
follows it in `_plan_voyage`: the first table entry whose origin and
destination match by two-sided substring containment. -/
def find_route_data (origin destination : String) : Option RouteData :=
  let ol := lowerStr origin
  let dl := lowerStr destination
  (routes_table.find? (fun e =>
    (strContains ⟨e.1.1.data⟩ ol || strContains ol ⟨e.1.1.data⟩) &&
    (strContains ⟨e.1.2.data⟩ dl || strContains dl ⟨e.1.2.data⟩))).map Prod.snd

/-- Default route data from `_estimate_route` (voyage_planner.py lines
187-196): 8000 nm, assumed via Suez. -/
def estimate_route : RouteData := ⟨8000, true, false, false⟩

/-- The panamax performance record, the planner's default vessel. -/
def panamax_perf : VesselPerf := ⟨14, 30, 14.5⟩

/-- Route computation of `_plan_voyage` (voyage_planner.py lines 140-163):
vessel lookup with panamax default, route lookup with estimated fallback,
then `_calculate_route_options`. -/
def plan_voyage_routes (origin destination vessel_type : String)
    (compare_routes req_via_suez : Bool) : List RouteOption :=
  let vd := (lookupStr vessel_type vessel_types_table).getD panamax_perf
  let rd := (find_route_data origin destination).getD estimate_route
  calculate_route_options origin destination rd vd compare_routes req_via_suez

/-- C2: planning Singapore to Rotterdam with a panamax and no route
comparison yields exactly one route option: the primary via Suez at 8500 nm
whose canal fee is the Suez formula applied to the panamax draft 14.5,
namely max(5000, 14.5/20 × 100000 × 8.5) = 616250. -/
theorem plan_singapore_rotterdam_primary :
    plan_voyage_routes "Singapore" "Rotterdam" "panamax" false false
      = [{ name := "Singapore to Rotterdam"
           distance := 8500
           via_canal := "Suez"
           estimated_days := 8500 / 336
           fuel_consumption := 10625 / 14
           canal_fees := 616250
           rtype := "primary" }] ∧
    (616250 : ℚ) = max 5000 (14.5 / 20 * 100000 * 8.5) := by
  constructor
  · have hfind : find_route_data "Singapore" "Rotterdam"
        = some { distance := 8500, via_suez := true, via_panama := false,
                 via_cape := false } := by
      decide
    have hname : titleStr "Singapore" ++ " to " ++ titleStr "Rotterdam"
        = "Singapore to Rotterdam" := by
      decide
    have hv : lookupStr "panamax" vessel_types_table = some panamax_perf := by
      simp [lookupStr, vessel_types_table, panamax_perf]
    simp only [plan_voyage_routes, hfind, hv, Option.getD_some,
      calculate_route_options, primary_route, calculate_canal_fees,
      panamax_perf, suez_fees]
    norm_num [hname, round2, round_eq, max_def, RouteOption.mk.injEq]
  · norm_num [max_def]

/-- Helper: if the primary route's canal label comes out "None", both canal
flags are off and the fee computation returns 0. -/
theorem canal_fee_flags_none (vd : VesselPerf) (s p : Bool)
    (h : (if s = true then "Suez" else if p = true then "Panama" else "None") = "None") :
    calculate_canal_fees vd s p = 0 := by
  cases s
  · cases p
    · simp [calculate_canal_fees]
    · simp at h
  · simp at h

/-- C4: every route option built by `_calculate_route_options` (primary,
cape alternative or what-if) whose via_canal is "None" carries a canal fee
of 0. -/
theorem route_none_canal_zero_fee (origin destination : String) (rd : RouteData)
    (vd : VesselPerf) (cr rvs : Bool) (r : RouteOption)
    (hr : r ∈ calculate_route_options origin destination rd vd cr rvs)
    (hn : r.via_canal = "None") :
    r.canal_fees = 0 := by
  rcases mem_calculate_route_options origin destination rd vd cr rvs r hr with
    rfl | rfl | rfl
  · simp only [primary_route] at hn ⊢
    exact canal_fee_flags_none vd rd.via_suez rd.via_panama hn
  · rfl
  · exact absurd hn (by simp [whatif_suez_route])

/-- The primary Singapore-Rotterdam route option under comparison. -/
def srPrimaryRoute : RouteOption :=
  ⟨"Singapore to Rotterdam", 8500, "Suez", 2125 / 84, 10625 / 14, 616250, "primary"⟩

/-- The Cape alternative the planner generates for Singapore-Rotterdam. -/
def srCapeRoute : RouteOption :=
  ⟨"Singapore to Rotterdam via Cape", 11900, "None", 425 / 12, 2125 / 2, 0, "alternative"⟩

/-- Helper: concrete run of `_calculate_route_options` for
singapore-rotterdam with route comparison requested. -/
theorem routes_sr_compare_eval :
    calculate_route_options "singapore" "rotterdam" ⟨8500, true, false, false⟩
        panamax_perf true false
      = [srPrimaryRoute, srCapeRoute] := by
  have hname : titleStr "singapore" ++ " to " ++ titleStr "rotterdam"
      = "Singapore to Rotterdam" := by
    decide
  have hname2 : titleStr "singapore" ++ " to " ++ titleStr "rotterdam" ++ " via Cape"
      = "Singapore to Rotterdam via Cape" := by
    decide
  have hname3 : ("Singapore to Rotterdam" ++ " via Cape" : String)
      = "Singapore to Rotterdam via Cape" := by
    decide
  simp only [calculate_route_options, primary_route, cape_route, whatif_suez_route,
    calculate_canal_fees, panamax_perf, suez_fees, hname, hname2, hname3,
    srPrimaryRoute, srCapeRoute]
  norm_num [round2, round_eq, max_def, RouteOption.mk.injEq, Int.floor_eq_iff]

/-- Witness for C4: the concrete Cape alternative generated for
singapore-rotterdam has via_canal "None" and fee 0. -/
theorem route_none_canal_zero_fee_witness :
    srCapeRoute.canal_fees = 0 :=
  route_none_canal_zero_fee "singapore" "rotterdam" ⟨8500, true, false, false⟩
    panamax_perf true false srCapeRoute
    (by rw [routes_sr_compare_eval]; exact List.mem_cons_of_mem _ (List.mem_cons_self _ _))
    rfl

/-! ## Voyage costs and recommendations (voyage_planner.py lines 274-339) -/

/-- The cost dictionary returned by `_calculate_voyage_costs`. -/
structure VoyageCosts where
  fuel_cost : ℚ
  canal_fees : ℚ
  port_charges : ℚ
  crew_cost : ℚ
  other_costs : ℚ
  total_cost : ℚ
  cost_per_day : ℚ
  deriving DecidableEq, Repr

/-- Embedding of `_calculate_voyage_costs` (voyage_planner.py lines
274-306); `bunker_price` is the externally supplied price (default 500, and
the exception fallback `fuel_consumption * 0.5` coincides with price 500). -/
def calculate_voyage_costs (r : RouteOption) (bunker_price : ℚ) : VoyageCosts :=
  let fuel_cost := r.fuel_consumption * bunker_price / 1000
  let canal_fees := r.canal_fees
  let port_charges : ℚ := 15000
  let crew_cost := r.estimated_days * 500
  let other_costs : ℚ := 10000
  let total_cost := fuel_cost + canal_fees + port_charges + crew_cost + other_costs
  ⟨round2 fuel_cost, canal_fees, port_charges, round2 crew_cost, other_costs,
   round2 total_cost, round2 (total_cost / r.estimated_days)⟩

/-- Route dicts built by `_calculate_route_options` carry exactly the keys
name, distance, via_canal, estimated_days, fuel_consumption, canal_fees,
type; a `total_cost` key is never inserted (the what-if copy duplicates the
primary's keys), so the lookup `x["total_cost"] if "total_cost" in x` in
`_generate_recommendations` finds no value on any route. -/
def route_dict_total_cost (_ : RouteOption) : Option ℚ := none

/-- Embedding of `_generate_recommendations` (voyage_planner.py lines
308-339).  `wave_height` models `weather["marine"]["wave_height"]` when both
keys are present.  The alternative-route branch mirrors Python
`min(alternatives, key=...)` with the default-infinity key: only routes
actually carrying a `total_cost` value can compare below the primary
total. -/
def generate_recommendations (routes : List RouteOption) (costs : VoyageCosts)
    (wave_height : Option ℚ) : List String :=
  let recs : List String := []
  let recs :=
    if routes.length > 1 then
      let alternatives := routes.filter (fun r => r.rtype ≠ "primary")
      if alternatives ≠ [] then
        let keyed := alternatives.filterMap
          (fun r => (route_dict_total_cost r).map (fun c => (c, r)))
        match keyed.foldl (fun acc p =>
            match acc with
            | none => some p
            | some q => if p.1 < q.1 then some p else some q) none with
        | some (c, r) =>
          if c < costs.total_cost then
            recs ++ ["Consider " ++ r.name ++ " for potential cost savings"]
          else recs
        | none => recs
      else recs
    else recs
  let recs :=
    match wave_height with
    | some wh =>
      if wh > 3.0 then
        recs ++ ["High wave conditions detected - consider route adjustment or speed reduction"]
      else if wh < 1.0 then
        recs ++ ["Favorable sea conditions - optimal for fuel efficiency"]
      else recs
    | none => recs
  let recs :=
    if costs.fuel_cost > costs.total_cost * 0.6 then
      recs ++ ["Fuel costs represent high percentage of total voyage cost - consider speed optimization"]
    else recs
  let recs :=
    if costs.canal_fees > 0 then
      recs ++ ["Canal fees significant - verify vessel dimensions and tonnage for accurate fee calculation"]
    else recs
  recs

/-- C6: at the concrete plan singapore-rotterdam, panamax, comparison
requested, bunker 500, the Cape alternative's voyage cost is strictly lower
than the primary's, yet the recommendation list contains no "Consider …"
entry — only the canal-fee note — because route dicts never carry the
`total_cost` key the recommendation rule reads. -/
theorem cheaper_alternative_not_recommended :
    calculate_route_options "singapore" "rotterdam" ⟨8500, true, false, false⟩
        panamax_perf true false = [srPrimaryRoute, srCapeRoute] ∧
    (calculate_voyage_costs srCapeRoute 500).total_cost
        < (calculate_voyage_costs srPrimaryRoute 500).total_cost ∧
    generate_recommendations [srPrimaryRoute, srCapeRoute]
        (calculate_voyage_costs srPrimaryRoute 500) none
      = ["Canal fees significant - verify vessel dimensions and tonnage for accurate fee calculation"] := by
  have hcape : (calculate_voyage_costs srCapeRoute 500).total_cost = 43239.58 := by
    norm_num [calculate_voyage_costs, srCapeRoute, round2, round_eq]
  have hprim : (calculate_voyage_costs srPrimaryRoute 500).total_cost = 654278.27 := by
    norm_num [calculate_voyage_costs, srPrimaryRoute, round2, round_eq]
  refine ⟨routes_sr_compare_eval, ?_, ?_⟩
  · rw [hcape, hprim]
    norm_num
  · simp only [generate_recommendations, route_dict_total_cost, srPrimaryRoute,
      srCapeRoute, List.filter, List.filterMap, List.foldl,
      calculate_voyage_costs]
    norm_num +decide [round2, round_eq]

/-! ## PDA cost estimator (`_estimate_pda_costs`, pda_management.py lines 144-213) -/

/-- The `self.regional_multipliers` table (pda_management.py lines 40-46). -/
def regional_multipliers : List (String × ℚ) :=
  [("asia", 1.0), ("europe", 1.3), ("americas", 1.2), ("middle_east", 0.9),
   ("africa", 1.1)]

/-- The `region_mapping` table of `_get_port_region` (pda_management.py
lines 336-346). -/
def region_mapping : List (String × String) :=
  [("singapore", "asia"), ("shanghai", "asia"), ("mumbai", "asia"),
   ("rotterdam", "europe"), ("london", "europe"), ("houston", "americas"),
   ("santos", "americas"), ("fujairah", "middle_east"), ("cape_town", "africa")]

/-- Embedding of `_get_port_region`: mapped region or the "asia" default. -/
def get_port_region (port : String) : String :=
  (lookupStr port region_mapping).getD "asia"

/-- The eleven base line items of `_estimate_pda_costs` (lines 156-168),
each already scaled by the regional multiplier. -/
def base_cost_items (m : ℚ) : List (String × ℚ) :=
  [("port_dues", 0.25 * m), ("pilotage", 0.15 * m), ("towage", 0.10 * m),
   ("berth_fees", 0.08 * m), ("agency_fees", 0.12 * m),
   ("documentation", 0.05 * m), ("communications", 0.03 * m),
   ("security", 0.06 * m), ("fresh_water", 0.04 * m), ("provisions", 0.07 * m),
   ("waste_disposal", 0.02 * m)]

/-- The cargo cost pair written by one loop iteration (lines 173-182),
keyed by the handling class of the cargo type. -/
def cargo_cost_items (m : ℚ) (ct : String) : List (String × ℚ) :=
  if lowerStr ct ∈ (["coal", "iron_ore", "grain"] : List String) then
    [("stevedoring", 0.18 * m), ("equipment", 0.05 * m)]
  else if lowerStr ct ∈ (["oil", "lng", "lpg"] : List String) then
    [("stevedoring", 0.22 * m), ("equipment", 0.08 * m)]
  else
    [("stevedoring", 0.20 * m), ("equipment", 0.06 * m)]

/-- Size multiplier one loop iteration assigns for a vessel type
(lines 187-194), `none` when the type matches no branch. -/
def size_mult_of (vt : String) : Option ℚ :=
  if lowerStr vt ∈ (["vlcc", "capesize"] : List String) then some 1.5
  else if lowerStr vt ∈ (["panamax", "supramax"] : List String) then some 1.0
  else if lowerStr vt ∈ (["handysize"] : List String) then some 0.8
  else none

/-- The `vessel_adjustments` loop: each recognised vessel type overwrites
the single `size_multiplier` entry, so the last recognised one wins; an
empty result means the dict stayed empty and no adjustment is applied. -/
def resolve_size_multiplier (vts : List String) : Option ℚ :=
  vts.foldl (fun acc vt =>
    match size_mult_of vt with
    | some m => some m
    | none => acc) none

/-- Sum of the amounts of a line-item list (Python `sum(d.values())`). -/
def sumSnd (l : List (String × ℚ)) : ℚ := (l.map Prod.snd).sum

/-- One port's estimate record as stored by `_estimate_pda_costs`. -/
structure PdaEstimate where
  base_costs : List (String × ℚ)
  cargo_costs : List (String × ℚ)
  size_multiplier : Option ℚ
  total_cost_per_call : ℚ
  region : String
  multiplier : ℚ
  deriving DecidableEq, Repr

/-- Embedding of one iteration of the `_estimate_pda_costs` port loop.  The
cargo loop overwrites the same two dict keys on every iteration, so only the
last cargo type survives (`getLast?`); the total is the base-plus-cargo sum,
scaled by the size multiplier only when the adjustment dict is non-empty,
then rounded to cents. -/
def estimate_for_port (port : String) (vessel_types cargo_types : List String) :
    PdaEstimate :=
  let region := get_port_region (lowerStr port)
  let multiplier := (lookupStr region regional_multipliers).getD 1.0
  let base_costs := base_cost_items multiplier
  let cargo_costs :=
    match cargo_types.getLast? with
    | none => []
    | some ct => cargo_cost_items multiplier ct
  let size_multiplier := resolve_size_multiplier vessel_types
  let subtotal := sumSnd base_costs + sumSnd cargo_costs
  let total :=
    match size_multiplier with
    | some m => subtotal * m
    | none => subtotal
  ⟨base_costs, cargo_costs, size_multiplier, round2 total, region, multiplier⟩

/-- Embedding of `_estimate_pda_costs`: one estimate record per requested
port. -/
def estimate_pda_costs (ports vessel_types cargo_types : List String) :
    List (String × PdaEstimate) :=
  ports.map (fun port => (port, estimate_for_port port vessel_types cargo_types))

/-- C3 (amended): every stored total equals the base-plus-cargo line-item
sum, scaled by the single resolved size multiplier (1 when no vessel type is
recognised) and rounded to two decimals; the size factor scales the total
only — the stored base line items carry just the regional multiplier. -/
theorem pda_total_is_rounded_scaled_sum (ports vts cts : List String)
    (port : String) (pe : PdaEstimate)
    (h : (port, pe) ∈ estimate_pda_costs ports vts cts) :
    pe.total_cost_per_call =
      round2 ((pe.size_multiplier.getD 1) * (sumSnd pe.base_costs + sumSnd pe.cargo_costs)) ∧
    pe.base_costs = base_cost_items pe.multiplier := by
  simp only [estimate_pda_costs, List.mem_map] at h
  obtain ⟨p, _, hp⟩ := h
  obtain ⟨rfl, rfl⟩ : p = port ∧ estimate_for_port p vts cts = pe := by
    injection hp with h1 h2
    exact ⟨h1, h2⟩
  simp only [estimate_for_port]
  cases hsm : resolve_size_multiplier vts with
  | none => simp [mul_comm]
  | some m => simp [mul_comm]

/-- Counterexample for C3 as stated: for rotterdam with a vlcc and oil cargo
the stored total is the rounded 2.48, while the size multiplier times the
line-item sum is 1.5 × (1.261 + 0.39) = 2.4765; the exact equality of the
claim fails. -/
theorem pda_total_rounding_counterexample :
    (estimate_pda_costs ["rotterdam"] ["vlcc"] ["oil"]).map
        (fun p => p.2.total_cost_per_call) = [2.48] ∧
    (estimate_pda_costs ["rotterdam"] ["vlcc"] ["oil"]).map
        (fun p => (p.2.size_multiplier.getD 1) *
          (sumSnd p.2.base_costs + sumSnd p.2.cargo_costs)) = [2.4765] ∧
    (2.48 : ℚ) ≠ 2.4765 := by
  have hreg : get_port_region (lowerStr "rotterdam") = "europe" := by decide
  refine ⟨?_, ?_, by norm_num⟩ <;>
    simp only [estimate_pda_costs, estimate_for_port, hreg, List.map,
      resolve_size_multiplier, size_mult_of, cargo_cost_items, base_cost_items,
      sumSnd, lookupStr, regional_multipliers, List.foldl] <;>
    norm_num +decide [round2, round_eq]

/-- Witness for C3 at the concrete input (rotterdam, vlcc, oil):
2.48 = round2(1.5 × 1.651). -/
theorem pda_total_witness :
    (estimate_for_port "rotterdam" ["vlcc"] ["oil"]).total_cost_per_call =
      round2 (((estimate_for_port "rotterdam" ["vlcc"] ["oil"]).size_multiplier.getD 1) *
        (sumSnd (estimate_for_port "rotterdam" ["vlcc"] ["oil"]).base_costs +
         sumSnd (estimate_for_port "rotterdam" ["vlcc"] ["oil"]).cargo_costs)) :=
  (pda_total_is_rounded_scaled_sum ["rotterdam"] ["vlcc"] ["oil"] "rotterdam"
    (estimate_for_port "rotterdam" ["vlcc"] ["oil"])
    (List.mem_map.mpr ⟨"rotterdam", List.mem_singleton.mpr rfl, rfl⟩)).1

end Aqua
